import Mathlib

/-!
Verification of the piccolo query-construction and schema-metadata core.

The embedding follows the Python source files under `piccolo/` :
`query/methods/update.py`, `columns/reference.py`, `table.py`.
Components of the repository whose source file is not part of the sample
(`querystring.py`, `query/mixins.py`, the `Column` class hierarchy,
`utils._camel_to_snake`, the `Where` combinables) are modelled from the
specification; each such definition carries a doc comment saying so.

Python runtime values are modelled by the inductive `Val`; Python
truthiness (`if not value`, `if self.app_name and ...`) is modelled
explicitly by `truthyVal` / `truthyOpt`.  Python functions that can raise
are embedded as `Except String` computations carrying the source's error
message (for errors raised by the interpreter itself, such as
`AttributeError`, the message is a rendering of the runtime error).
-/

/-- A Python runtime value, as far as the claims need it: `None`, a bool,
an int or a string.  `type(x) == int` style checks map to matching on the
constructor. -/
inductive Val where
  | none : Val
  | bool : Bool → Val
  | int : Int → Val
  | str : String → Val
deriving DecidableEq, Repr

/-- Python truthiness of a `Val` (`if not value:`). -/
def truthyVal : Val → Bool
  | Val.none => false
  | Val.bool b => b
  | Val.int n => n ≠ 0
  | Val.str s => s ≠ ""

/-- Python truthiness of an optional string (`if self.app_name:`):
`None` and the empty string are falsy. -/
def truthyOpt : Option String → Bool
  | Option.none => false
  | Option.some s => s ≠ ""

mutual
/-- Modelled from the spec: one argument slot of a `QueryString`
(`querystring.py` is not part of the sample): a plain bind value, an
`Unquoted` literal inserted verbatim, or a nested `QueryString`. -/
inductive QArg where
  | value : Val → QArg
  | unquoted : String → QArg
  | nested : QueryString → QArg

/-- Modelled from the spec: a composable SQL template — text with
positional `\x7b\x7d` placeholders plus an ordered argument list. -/
inductive QueryString where
  | mk : String → List QArg → QueryString
end

/-- The template string of a `QueryString`. -/
def QueryString.template : QueryString → String
  | QueryString.mk t _ => t

/-- The argument list of a `QueryString`. -/
def QueryString.args : QueryString → List QArg
  | QueryString.mk _ a => a

/-- Splits a character list at every occurrence of the two-character
placeholder `\x7b\x7d`, producing the list of text fragments around the
placeholders (n placeholders yield n+1 fragments), exactly as Python's
`str.split` on that separator does for the templates at hand. -/
def splitTemplateChars : List Char → List String
  | [] => [""]
  | '\x7b' :: '\x7d' :: rest => "" :: splitTemplateChars rest
  | c :: rest =>
      match splitTemplateChars rest with
      | [] => [String.mk [c]]
      | s :: ss => String.mk (c :: s.toList) :: ss

/-- Splits a template string at its positional placeholders. -/
def splitTemplate (s : String) : List String :=
  splitTemplateChars s.toList

mutual
/-- Modelled from the spec: depth-first left-to-right rendering of a
`QueryString` into flat SQL text plus the ordered flat bind-value list.
The template is split at its placeholders and rewoven with the rendered
arguments. -/
def QueryString.render : QueryString → String × List Val
  | QueryString.mk template args =>
      renderWeave (splitTemplate template) args

/-- Weaves template fragments with rendered arguments: each placeholder
position is replaced by the corresponding argument's rendered text, and
the argument's bind values are spliced into the output list at that
position, preserving left-to-right order. -/
def renderWeave : List String → List QArg → String × List Val
  | parts, [] => (String.join parts, [])
  | [], _ :: _ => ("", [])
  | p :: parts, a :: args =>
      let ra := renderArg a
      let rw := renderWeave parts args
      (p ++ ra.1 ++ rw.1, ra.2 ++ rw.2)

/-- Renders a single argument: a plain value becomes a fresh placeholder
marker with the value as its single bind entry, an `Unquoted` literal is
inserted verbatim with no bind entry, and a nested `QueryString` is
rendered recursively with its bind values spliced in place. -/
def renderArg : QArg → String × List Val
  | QArg.value v => ("\x7b\x7d", [v])
  | QArg.unquoted s => (s, [])
  | QArg.nested q => QueryString.render q
end

/-- The flat, ordered bind-value list produced by rendering. -/
def QueryString.bind_values (q : QueryString) : List Val :=
  q.render.2

/-- The flat SQL text produced by rendering. -/
def QueryString.sql (q : QueryString) : String :=
  q.render.1

/-- Modelled from the spec: `utils._camel_to_snake` is not part of the
sample; the spec requires "a deterministic name derived from the declared
class name".  Interior uppercase letters are prefixed with an underscore
and everything is lowercased, so `"Band"` becomes `"band"`. -/
def camel_to_snake (s : String) : String :=
  String.mk (go s.toList true)
where
  go : List Char → Bool → List Char
    | [], _ => []
    | c :: rest, first =>
        if c.isUpper then
          (if first then [c.toLower] else ['_', c.toLower]) ++ go rest false
        else c :: go rest false

/-- The per-column metadata the sampled code reads (`column._meta`):
the stamped attribute name, the foreign-key call chain, nullability and
the owning table's class name.  The `Column` class itself is not part of
the sample; its fields are modelled from the spec's Column Metadata. -/
structure ColumnMeta where
  name : String
  call_chain : List String
  null : Bool
  table : Option String
deriving DecidableEq, Repr

/-- Modelled from the spec: a column default is either a plain value or a
callable producing one (`table.py` checks `hasattr(column.default,
"__call__")` and calls it). -/
inductive DefaultVal where
  | plain : Val → DefaultVal
  | callable : (Unit → Val) → DefaultVal

/-- Modelled from the spec: the slice of a `Column` object the sampled
code touches — its `_meta`, its `default` attribute and whether it is the
implicit `PrimaryKey` (for the `isinstance(column, PrimaryKey)` check). -/
structure Column where
  meta : ColumnMeta
  default : Option DefaultVal
  isPrimaryKey : Bool

/-- Python truthiness of the `column.default` attribute
(`if column.default:`): `None` is falsy, a plain value has value
truthiness, a callable object is truthy. -/
def defaultObjTruthy : Option DefaultVal → Bool
  | Option.none => false
  | Option.some (DefaultVal.plain v) => truthyVal v
  | Option.some (DefaultVal.callable _) => true

/-- `TableMeta` from `table.py` (lines 26-35): tablename plus the column
lists.  The `db` engine field is the external Engine collaborator and is
omitted.  Note this dataclass defines NO `app_name` field. -/
structure TableMeta where
  tablename : String
  columns : List Column
  non_default_columns : List Column

/-- A table class as seen by `reference.py`: its `__name__`, its
`__module__`, and its `_meta` (a `TableMeta`, which has no `app_name`
attribute). -/
structure TableClass where
  name : String
  module : String
  meta : TableMeta

/-- `LazyTableReference` from `reference.py` (lines 16-50): the symbolic
pointer to a not-yet-imported table, with the `ready` flag that
`__post_init__` initialises to `False`. -/
structure LazyTableReference where
  table_class_name : String
  app_name : Option String
  module_path : Option String
  ready : Bool
deriving DecidableEq, Repr

/-- `LazyTableReference.__post_init__` (`reference.py` lines 38-50) as a
fallible constructor: raises when both locators are `None`; raises when
both are truthy (Python `if self.app_name and self.module_path:` — an
empty string is falsy); otherwise the reference starts unready. -/
def LazyTableReference.construct (table_class_name : String)
    (app_name module_path : Option String) :
    Except String LazyTableReference :=
  if app_name = Option.none ∧ module_path = Option.none then
    Except.error "You must specify either app_name or module_path."
  else if truthyOpt app_name ∧ truthyOpt module_path then
    Except.error "Specify either app_name or module_path - not both."
  else
    Except.ok { table_class_name := table_class_name, app_name := app_name,
                module_path := module_path, ready := false }

/-- The candidate scan of `LazyTableReference.set_ready` (`reference.py`
lines 56-69).  On a class-name match it first tries the module-locator
branch (`self.module_path and self.module_path == table_class.__module__`),
then the app-locator branch, whose comparison reads
`table_class._meta.app_name` — an attribute `TableMeta` does not define,
so reaching it raises `AttributeError` at runtime. -/
def setReadyScan : LazyTableReference → List TableClass →
    Except String LazyTableReference
  | r, [] => Except.ok r
  | r, tc :: rest =>
      if r.table_class_name = tc.name then
        if truthyOpt r.module_path ∧ r.module_path = Option.some tc.module
        then
          Except.ok { r with ready := true }
        else if truthyOpt r.app_name then
          Except.error
            "AttributeError: TableMeta object has no attribute app_name"
        else
          setReadyScan r rest
      else
        setReadyScan r rest

/-- `LazyTableReference.set_ready` (`reference.py` lines 52-69): a no-op
once ready, otherwise the candidate scan above. -/
def LazyTableReference.set_ready (r : LazyTableReference)
    (table_classes : List TableClass) : Except String LazyTableReference :=
  if r.ready then Except.ok r
  else setReadyScan r table_classes

/-- The `references` field of a foreign key's `_foreign_key_meta`: either
still a `LazyTableReference` or already a concrete table class. -/
inductive References where
  | lazy : LazyTableReference → References
  | resolved : TableClass → References

/-- The slice of a `ForeignKey` column that `reference.py` touches. -/
structure ForeignKey where
  references : References

/-- `LazyColumnReferenceStore` (`reference.py` lines 111-147): the
process-wide registry of foreign-key columns. -/
structure LazyColumnReferenceStore where
  foreign_key_columns : List ForeignKey

/-- The iteration inside `LazyColumnReferenceStore.set_ready`
(`reference.py` lines 122-127): every registered column is processed;
`t.cast` performs no runtime check, so `references.set_ready(...)` is
invoked on whatever the `references` field holds — when it is already a
concrete table class, attribute lookup of `set_ready` on it raises
`AttributeError`. -/
def storeSetReadyScan : List ForeignKey → TableClass →
    Except String (List ForeignKey)
  | [], _ => Except.ok []
  | fk :: rest, tc =>
      match fk.references with
      | References.lazy r =>
          match r.set_ready [tc] with
          | Except.error e => Except.error e
          | Except.ok updated =>
              match storeSetReadyScan rest tc with
              | Except.error e => Except.error e
              | Except.ok rest2 =>
                  Except.ok
                    ({ references := References.lazy updated } :: rest2)
      | References.resolved _ =>
          Except.error
            "AttributeError: type object Table has no attribute set_ready"

/-- `LazyColumnReferenceStore.set_ready` (`reference.py` lines 116-127). -/
def LazyColumnReferenceStore.set_ready (store : LazyColumnReferenceStore)
    (table_class : TableClass) : Except String LazyColumnReferenceStore :=
  (storeSetReadyScan store.foreign_key_columns table_class).map
    (fun cols => { foreign_key_columns := cols })

/-- A class attribute as seen by the `dir(cls)` scan of
`Table.__init_subclass__`: either a `Column` instance or something else. -/
inductive Attr where
  | column : Column → Attr
  | nonColumn : Attr

/-- A table declaration: the class name and the non-underscore class
attributes in the order `dir(cls)` enumerates them (alphabetical). -/
structure TableDecl where
  className : String
  attributes : List (String × Attr)

/-- The fresh `PrimaryKey()` that `__init_subclass__` assigns to
`cls.id` (`table.py` line 72); its name is stamped during the scan. -/
def primaryKeyColumn : Column :=
  { meta := { name := "", call_chain := [], null := false,
              table := Option.none },
    default := Option.none, isPrimaryKey := true }

/-- The attribute scan of `__init_subclass__` (`table.py` lines 81-91):
collects every `Column`-typed attribute, stamping its name and owning
table back onto its metadata. -/
def stampColumns (className : String) :
    List (String × Attr) → List Column
  | [] => []
  | (n, Attr.column c) :: rest =>
      { c with meta := { c.meta with
          name := n,
          table := Option.some className } }
        :: stampColumns className rest
  | (_, Attr.nonColumn) :: rest => stampColumns className rest

/-- `Table.__init_subclass__` (`table.py` lines 65-97): assigns the
implicit primary key, determines the tablename (explicit argument, else
derived from the class name), scans the attributes, stamps each column,
and builds the `TableMeta` (passing `non_default_columns=[]` exactly as
line 96 does, despite having computed the list).  The global
`LazyColumnReferenceStore` is threaded through to expose the effect of
the bootstrap on it: the source never references the store, so it is
returned unchanged. -/
def initSubclass (decl : TableDecl) (tablenameArg : Option String)
    (store : LazyColumnReferenceStore) :
    TableMeta × LazyColumnReferenceStore :=
  let attrs := ("id", Attr.column primaryKeyColumn) ::
      decl.attributes.filter (fun a => a.1 ≠ "id")
  let tablename := match tablenameArg with
    | Option.some t => t
    | Option.none => camel_to_snake decl.className
  let columns := stampColumns decl.className attrs
  let _non_default_columns := columns.filter (fun c => ! c.isPrimaryKey)
  ({ tablename := tablename, columns := columns,
     non_default_columns := [] }, store)

/-- Modelled from the spec: the `Where` combinable produced by a column
comparison (`piccolo/columns` is not part of the sample); it carries the
predicate's `QueryString`. -/
structure Where where
  querystring : QueryString

/-- Modelled from the spec: `column == value` yields the predicate
`name = \x7b\x7d` with the compared value as its single bind value. -/
def eqWhere (columnName : String) (v : Val) : Where :=
  { querystring :=
      QueryString.mk (columnName ++ " = \x7b\x7d") [QArg.value v] }

/-- Modelled from the spec: `ValuesDelegate.values` performs a dict
update of the accumulated `\x7bColumn: value\x7d` map (`query/mixins.py`
is not part of the sample): an existing key's value is replaced, new keys
are appended in order. -/
def updateValues : List (Column × Val) → List (Column × Val) →
    List (Column × Val)
  | acc, [] => acc
  | acc, (c, v) :: rest =>
      updateValues
        (if acc.any (fun cv => cv.1.meta.name == c.meta.name) then
          acc.map (fun cv =>
            if cv.1.meta.name == c.meta.name then (cv.1, v) else cv)
        else acc ++ [(c, v)])
        rest

/-- The `Update` builder (`query/methods/update.py`): bound to one table,
with the values and where delegate state. -/
structure Update where
  table : TableMeta
  values_delegate : List (Column × Val)
  where_delegate : Option Where

/-- `Update.values` (`update.py` lines 18-20): accumulates into the
values delegate and returns the builder; it never raises. -/
def Update.values (u : Update) (values : List (Column × Val)) : Update :=
  { u with values_delegate := updateValues u.values_delegate values }

/-- `Update.where` (`update.py` lines 22-24): stores the predicate in the
where delegate and returns the builder; it never raises.  (Named
`where_` because `where` is reserved in Lean.) -/
def Update.where_ (u : Update) (w : Where) : Update :=
  { u with where_delegate := Option.some w }

/-- `Update.validate` (`update.py` lines 26-36): raises when no values
were supplied; raises when any target column's call chain is
non-empty. -/
def Update.validate (u : Update) : Except String Unit :=
  if u.values_delegate.isEmpty then
    Except.error "No values were specified to update - please use .values"
  else if u.values_delegate.any
      (fun cv => ! cv.1.meta.call_chain.isEmpty) then
    Except.error "Related values can\x27t be updated via an update"
  else
    Except.ok ()

/-- `Update.default_querystring` (`update.py` lines 38-63): validates,
builds `UPDATE <tablename> SET name = \x7b\x7d, ...` (note: the source
interpolates the raw tablename, without quotes) with the accumulated
values as bind arguments, and, when a where predicate exists, nests that
whole `QueryString` as the first argument of `\x7b\x7d WHERE \x7b\x7d`
with the predicate's `QueryString` second. -/
def Update.default_querystring (u : Update) : Except String QueryString :=
  match u.validate with
  | Except.error e => Except.error e
  | Except.ok _ =>
      let columns_str := String.intercalate ", "
        (u.values_delegate.map (fun cv => cv.1.meta.name ++ " = \x7b\x7d"))
      let query := "UPDATE " ++ u.table.tablename ++ " SET " ++ columns_str
      let querystring := QueryString.mk query
        (u.values_delegate.map (fun cv => QArg.value cv.2))
      match u.where_delegate with
      | Option.some w =>
          Except.ok (QueryString.mk "\x7b\x7d WHERE \x7b\x7d"
            [QArg.nested querystring, QArg.nested w.querystring])
      | Option.none => Except.ok querystring

/-- `kwargs.pop(column._meta.name, None)` over the keyword-argument dict
of `Table.__init__`: returns the value (or `None`) and the remaining
dict. -/
def popKw (kwargs : List (String × Val)) (name : String) :
    Val × List (String × Val) :=
  match kwargs.find? (fun kv => kv.1 == name) with
  | Option.some kv => (kv.2, kwargs.eraseP (fun kv2 => kv2.1 == name))
  | Option.none => (Val.none, kwargs)

/-- `value = column.default() if is_callable else column.default`
(`table.py` line 110). -/
def defaultValue : Option DefaultVal → Val → Val
  | Option.some (DefaultVal.callable f), _ => f ()
  | Option.some (DefaultVal.plain v), _ => v
  | Option.none, v0 => v0

/-- The per-column branch of `Table.__init__` (`table.py` lines 104-114):
a truthy supplied value is kept; otherwise the default is substituted when
the `default` attribute is truthy; otherwise a non-nullable column
raises; otherwise the falsy value is assigned as-is. -/
def tableInitStep (c : Column) (v0 : Val) : Except String Val :=
  if truthyVal v0 then Except.ok v0
  else if defaultObjTruthy c.default then
    Except.ok (defaultValue c.default v0)
  else if ! c.meta.null then
    Except.error (c.meta.name ++ " wasn\x27t provided")
  else
    Except.ok v0

/-- The column loop of `Table.__init__`: pops each column's kwarg,
applies `tableInitStep`, and returns the assigned `(name, value)` pairs
together with the unconsumed kwargs. -/
def tableInitLoop : List Column → List (String × Val) →
    Except String (List (String × Val) × List (String × Val))
  | [], kwargs => Except.ok ([], kwargs)
  | c :: cs, kwargs =>
      let pk := popKw kwargs c.meta.name
      match tableInitStep c pk.1 with
      | Except.error e => Except.error e
      | Except.ok v =>
          match tableInitLoop cs pk.2 with
          | Except.error e => Except.error e
          | Except.ok ar =>
              Except.ok ((c.meta.name, v) :: ar.1, ar.2)

/-- `Table.__init__` (`table.py` lines 99-118): runs the column loop,
then raises if any keyword argument named no declared column.  (The
message renders the leftover key view as the comma-separated keys.) -/
def tableInit (columns : List Column) (kwargs : List (String × Val)) :
    Except String (List (String × Val)) :=
  match tableInitLoop columns kwargs with
  | Except.error e => Except.error e
  | Except.ok ar =>
      if ar.2.isEmpty then Except.ok ar.1
      else Except.error ("Unrecognized columns - "
        ++ String.intercalate ", " (ar.2.map (fun kv => kv.1)))

/-- The slice of a `Table` instance that `Table.remove` touches: its
class's tablename and its `id` attribute. -/
structure TableInstance where
  tablename : String
  id : Val
deriving Repr

/-- The `Delete` builder as produced by
`cls.delete().where(cls.id == _id)` (`delete.py` is not part of the
sample; modelled from the spec's common builder contract: bound to one
table, holding the accumulated where predicate). -/
structure Delete where
  tablename : String
  whereClause : Option Where

/-- `Table.remove` (`table.py` lines 139-151): raises unless
`type(self.id) == int` (leaving the instance untouched); otherwise sets
`self.id = None` and returns a delete query whose predicate targets the
old id value. -/
def Table.remove (inst : TableInstance) :
    TableInstance × Except String Delete :=
  match inst.id with
  | Val.int n =>
      ({ inst with id := Val.none },
       Except.ok { tablename := inst.tablename,
                   whereClause := Option.some (eqWhere "id" (Val.int n)) })
  | _ =>
      (inst, Except.error "Can only delete pre-existing rows with an id.")

/-- A module attribute, as far as `resolve`'s
`inspect.isclass(table) and issubclass(table, Table)` check needs:
either a `Table` subclass or anything else. -/
inductive ModuleAttr where
  | tableClass : TableClass → ModuleAttr
  | notTable : ModuleAttr

/-- A loaded Python module: its attribute dictionary. -/
structure PyModule where
  attrs : List (String × ModuleAttr)

/-- `getattr(module, self.table_class_name, None)`. -/
def getattrModule (m : PyModule) (name : String) : Option ModuleAttr :=
  (m.attrs.find? (fun kv => kv.1 == name)).map (fun kv => kv.2)

/-- `LazyTableReference.resolve` (`reference.py` lines 71-100).  The
module importer and the app-registry `Finder` are the external
collaborators of the spec's §6 and are passed as parameters: `importer`
returns the loaded module or `none` (import failure), `finder` is the
app-registry lookup used by the app-locator branch. -/
def LazyTableReference.resolve
    (importer : String → Option PyModule)
    (finder : String → String → Except String TableClass)
    (r : LazyTableReference) : Except String TableClass :=
  match r.app_name with
  | Option.some a => finder a r.table_class_name
  | Option.none =>
      match r.module_path with
      | Option.some p =>
          if p ≠ "" then
            match importer p with
            | Option.none => Except.error ("ImportError: " ++ p)
            | Option.some m =>
                match getattrModule m r.table_class_name with
                | Option.some (ModuleAttr.tableClass tc) => Except.ok tc
                | _ =>
                    Except.error ("Can\x27t find a Table subclass called "
                      ++ r.table_class_name ++ " in " ++ p)
          else
            Except.error "You must specify either app_name or module_path."
      | Option.none =>
          Except.error "You must specify either app_name or module_path."

/-- C1: For every `QueryString("\x7b\x7d WHERE \x7b\x7d", inner, predicate)`,
the rendered bind values are exactly `inner`'s bind values followed by
`predicate`'s bind values, in that order, for arbitrary `inner` and
`predicate` — in particular however deeply `inner` is itself nested. -/
theorem update_where_bind_order (inner predicate : QueryString) :
    (QueryString.mk "\x7b\x7d WHERE \x7b\x7d"
        [QArg.nested inner, QArg.nested predicate]).bind_values
      = inner.bind_values ++ predicate.bind_values := by
  have hsplit : splitTemplate "\x7b\x7d WHERE \x7b\x7d"
      = ["", " WHERE ", ""] := by decide
  simp [QueryString.bind_values, QueryString.render, hsplit, renderWeave,
    renderArg]

/-- A plain declared column before stamping (name assigned by the scan). -/
def plainColumnDecl : Column :=
  { meta := { name := "", call_chain := [], null := false,
              table := Option.none },
    default := Option.none, isPrimaryKey := false }

/-- The spec's example table `Band{name, popularity}` as a declaration
(attributes in `dir` order). -/
def bandDecl : TableDecl :=
  { className := "Band",
    attributes := [("name", Attr.column plainColumnDecl),
                   ("popularity", Attr.column plainColumnDecl)] }

/-- The store before any foreign-key registration. -/
def emptyStore : LazyColumnReferenceStore := { foreign_key_columns := [] }

/-- `Band._meta`, as the schema bootstrap builds it. -/
def bandMeta : TableMeta := (initSubclass bandDecl Option.none emptyStore).1

/-- `Band.name` after the bootstrap stamped it. -/
def bandNameColumn : Column :=
  { meta := { name := "name", call_chain := [], null := false,
              table := Option.some "Band" },
    default := Option.none, isPrimaryKey := false }

/-- `Band.update().values(\x7bBand.name: "Spamalot"\x7d).where(Band.name ==
"Pythonistas")`. -/
def bandUpdate : Update :=
  Update.where_
    (Update.values
      { table := bandMeta, values_delegate := [],
        where_delegate := Option.none }
      [(bandNameColumn, Val.str "Spamalot")])
    (eqWhere "name" (Val.str "Pythonistas"))

/-- C2 counterexample: the example update renders with the tablename
interpolated raw — `UPDATE band SET ...` — which differs from the claimed
`UPDATE "band" SET ...`: `update.py` line 49 writes the tablename without
quotes. -/
theorem band_update_tablename_unquoted_cex :
    (Update.default_querystring bandUpdate).map QueryString.sql
      = Except.ok "UPDATE band SET name = \x7b\x7d WHERE name = \x7b\x7d"
  ∧ ("UPDATE band SET name = \x7b\x7d WHERE name = \x7b\x7d" : String)
      ≠ "UPDATE \"band\" SET name = \x7b\x7d WHERE name = \x7b\x7d" :=
  ⟨rfl, by decide⟩

/-- C2 amended: the example update renders to SQL text
`UPDATE band SET name = \x7b\x7d WHERE name = \x7b\x7d` (tablename
derived from the class name but not quoted) with bind values
`["Spamalot", "Pythonistas"]` in that order. -/
theorem band_update_render_amended :
    (Update.default_querystring bandUpdate).map QueryString.render
      = Except.ok ("UPDATE band SET name = \x7b\x7d WHERE name = \x7b\x7d",
          [Val.str "Spamalot", Val.str "Pythonistas"])
  ∧ bandMeta.tablename = camel_to_snake "Band"
  ∧ camel_to_snake "Band" = "band" :=
  ⟨rfl, rfl, rfl⟩

/-- C3: rendering-time validation fails with the usage error when no
values were supplied, and fails when any target column's call chain is
non-empty; the `values`/`where` accumulation calls are total, mutate only
their own delegate state and return the builder. -/
theorem update_validate_accumulate (u : Update) :
    (u.values_delegate = [] →
      u.validate = Except.error
        "No values were specified to update - please use .values")
  ∧ ((∃ cv ∈ u.values_delegate, cv.1.meta.call_chain ≠ []) →
      u.validate = Except.error
        "Related values can\x27t be updated via an update")
  ∧ (∀ vs, (u.values vs).table = u.table ∧
      (u.values vs).where_delegate = u.where_delegate)
  ∧ (∀ w, (u.where_ w).table = u.table ∧
      (u.where_ w).values_delegate = u.values_delegate) := by
  refine ⟨?_, ?_, fun vs => ⟨rfl, rfl⟩, fun w => ⟨rfl, rfl⟩⟩
  · intro h
    simp [Update.validate, h]
  · rintro ⟨cv, hmem, hne⟩
    have hempty : u.values_delegate.isEmpty = false := by
      cases hd : u.values_delegate with
      | nil => rw [hd] at hmem; simp at hmem
      | cons a l => simp [hd]
    have hany : u.values_delegate.any
        (fun cv => ! cv.1.meta.call_chain.isEmpty) = true := by
      refine List.any_eq_true.mpr ⟨cv, hmem, ?_⟩
      simpa using hne
    simp [Update.validate, hempty, hany]

/-- An update with no values yet. -/
def emptyBandUpdate : Update :=
  { table := bandMeta, values_delegate := [], where_delegate := Option.none }

/-- A column reached through a foreign-key hop (`Band.manager.name`):
non-empty call chain. -/
def chainedColumn : Column :=
  { meta := { name := "name", call_chain := ["manager"], null := false,
              table := Option.some "Manager" },
    default := Option.none, isPrimaryKey := false }

/-- An update whose single target column was reached through a
foreign-key traversal. -/
def chainedUpdate : Update :=
  { table := bandMeta,
    values_delegate := [(chainedColumn, Val.str "Guido")],
    where_delegate := Option.none }

/-- C3 witness: both validation failures observed on concrete builders. -/
theorem update_validate_accumulate_witness :
    emptyBandUpdate.validate = Except.error
      "No values were specified to update - please use .values"
  ∧ chainedUpdate.validate = Except.error
      "Related values can\x27t be updated via an update"
  ∧ (emptyBandUpdate.values [(bandNameColumn, Val.str "Spamalot")]).table
      = emptyBandUpdate.table :=
  ⟨(update_validate_accumulate emptyBandUpdate).1 rfl,
   (update_validate_accumulate chainedUpdate).2.1
     ⟨(chainedColumn, Val.str "Guido"), by simp [chainedUpdate],
      by simp [chainedColumn]⟩,
   ((update_validate_accumulate emptyBandUpdate).2.2.1
     [(bandNameColumn, Val.str "Spamalot")]).1⟩

/-- The readiness flag a foreign key's reference currently shows
(a concrete reference counts as ready). -/
def fkReadyFlag : ForeignKey → Bool
  | { references := References.lazy r } => r.ready
  | { references := References.resolved _ } => true

/-- Whether a `references` field still holds a `LazyTableReference`. -/
def isLazy : References → Bool
  | References.lazy _ => true
  | References.resolved _ => false

/-- An unready lazy reference to `Manager` by module path. -/
def managerLazyRef : LazyTableReference :=
  { table_class_name := "Manager", app_name := Option.none,
    module_path := Option.some "music.tables", ready := false }

/-- A store holding one foreign key that awaits `Manager`. -/
def managerStore : LazyColumnReferenceStore :=
  { foreign_key_columns := [{ references := References.lazy managerLazyRef }] }

/-- A `Manager` table declaration. -/
def managerDecl : TableDecl :=
  { className := "Manager",
    attributes := [("name", Attr.column plainColumnDecl)] }

/-- The bootstrapped `Manager` table class (module `music.tables`). -/
def managerTableClass : TableClass :=
  { name := "Manager", module := "music.tables",
    meta := { tablename := "manager", columns := [],
              non_default_columns := [] } }

/-- C4: the schema bootstrap never touches the global lazy-reference
store — `table.py` contains no call to `LAZY_COLUMN_REFERENCES.set_ready`
— so after bootstrapping any table declaration the store is unchanged;
in particular a lazy reference awaiting exactly that table stays
unready. -/
theorem init_subclass_never_notifies (decl : TableDecl)
    (tn : Option String) (store : LazyColumnReferenceStore) :
    (initSubclass decl tn store).2 = store
  ∧ (List.map fkReadyFlag
      (initSubclass managerDecl Option.none managerStore).2.foreign_key_columns
      = [false]) :=
  ⟨rfl, rfl⟩

/-- A store holding one foreign key whose reference is already a concrete
table class. -/
def resolvedStore : LazyColumnReferenceStore :=
  { foreign_key_columns :=
      [{ references := References.resolved managerTableClass }] }

/-- C5 counterexample: a registered column whose `references` is already
a concrete table class is not skipped — the store's notification errors
on it, because `reference.py` lines 122-127 invoke `set_ready` on every
column's `references` without an `isinstance` check. -/
theorem store_set_ready_no_skip_cex :
    resolvedStore.set_ready managerTableClass
      = Except.error
        "AttributeError: type object Table has no attribute set_ready" :=
  rfl

/-- A lazy reference with a falsy `app_name` never errors in its
candidate scan: the only failing path is the app-locator attribute
access. -/
theorem setReadyScan_app_none_ok (r : LazyTableReference)
    (h : truthyOpt r.app_name = false) :
    ∀ tcs, ∃ r2, setReadyScan r tcs = Except.ok r2 := by
  intro tcs
  induction tcs with
  | nil => exact ⟨r, rfl⟩
  | cons tc rest ih =>
      simp only [setReadyScan, h]
      split
      · split
        · exact ⟨_, rfl⟩
        · simpa using ih
      · exact ih

/-- `set_ready` of a reference with a falsy `app_name` always
succeeds. -/
theorem set_ready_app_none_ok (r : LazyTableReference)
    (tcs : List TableClass) (h : truthyOpt r.app_name = false) :
    ∃ r2, LazyTableReference.set_ready r tcs = Except.ok r2 := by
  rw [LazyTableReference.set_ready]
  by_cases hr : r.ready
  · simp [hr]
  · simp only [if_neg hr]
    exact setReadyScan_app_none_ok r h tcs

/-- If any registered column's reference is no longer lazy, the store's
notification scan errors. -/
theorem storeScan_error_of_resolved (tc : TableClass) :
    ∀ cols : List ForeignKey,
      (∃ fk ∈ cols, isLazy fk.references = false) →
      ∃ e, storeSetReadyScan cols tc = Except.error e := by
  intro cols
  induction cols with
  | nil => rintro ⟨fk, hmem, _⟩; simp at hmem
  | cons fk0 rest ih =>
      rintro ⟨fk, hmem, hfk⟩
      cases href : fk0.references with
      | lazy r =>
          have hmem2 : fk ∈ rest := by
            rcases List.mem_cons.mp hmem with hh | hh
            · rw [hh, href] at hfk; simp [isLazy] at hfk
            · exact hh
          obtain ⟨e2, he2⟩ := ih ⟨fk, hmem2, hfk⟩
          cases hsr : LazyTableReference.set_ready r [tc] with
          | error e => exact ⟨e, by simp [storeSetReadyScan, href, hsr]⟩
          | ok r2 =>
              exact ⟨e2, by simp [storeSetReadyScan, href, hsr, he2]⟩
      | resolved t =>
          exact
            ⟨"AttributeError: type object Table has no attribute set_ready",
             by simp [storeSetReadyScan, href]⟩

/-- If every registered column's reference is lazy with a falsy
`app_name`, the notification scan succeeds and applies the readiness
check to every column in order. -/
theorem storeScan_ok_of_all_lazy (tc : TableClass) :
    ∀ cols : List ForeignKey,
      (∀ fk ∈ cols, ∃ r, fk.references = References.lazy r ∧
        truthyOpt r.app_name = false) →
      ∃ cols2, storeSetReadyScan cols tc = Except.ok cols2 ∧
        List.Forall₂ (fun fk fk2 => ∃ r r2,
          fk.references = References.lazy r ∧
          fk2.references = References.lazy r2 ∧
          LazyTableReference.set_ready r [tc] = Except.ok r2) cols cols2 := by
  intro cols
  induction cols with
  | nil => intro _; exact ⟨[], rfl, List.Forall₂.nil⟩
  | cons fk0 rest ih =>
      intro hall
      obtain ⟨r, hr, happ⟩ := hall fk0 (List.mem_cons_self _ _)
      obtain ⟨r2, hr2⟩ := set_ready_app_none_ok r [tc] happ
      obtain ⟨cols2, hc2, hf2⟩ :=
        ih (fun fk hm => hall fk (List.mem_cons_of_mem _ hm))
      refine ⟨{ references := References.lazy r2 } :: cols2, ?_, ?_⟩
      · simp [storeSetReadyScan, hr, hr2, hc2]
      · exact List.Forall₂.cons ⟨r, r2, hr, rfl, hr2⟩ hf2

/-- C5 amended: the store's notification invokes the readiness check on
every registered foreign-key column unconditionally; when every
registered reference is still lazy (with a falsy `app_name`, the case
the scan can survive) each one receives `set_ready([table_class])`, and
a column whose reference is already a concrete table class makes the
call error instead of being skipped. -/
theorem store_set_ready_unconditional (store : LazyColumnReferenceStore)
    (tc : TableClass) :
    ((∃ fk ∈ store.foreign_key_columns, isLazy fk.references = false) →
      ∃ e, store.set_ready tc = Except.error e)
  ∧ ((∀ fk ∈ store.foreign_key_columns,
        ∃ r, fk.references = References.lazy r ∧
          truthyOpt r.app_name = false) →
      ∃ store2, store.set_ready tc = Except.ok store2 ∧
        List.Forall₂ (fun fk fk2 => ∃ r r2,
            fk.references = References.lazy r ∧
            fk2.references = References.lazy r2 ∧
            LazyTableReference.set_ready r [tc] = Except.ok r2)
          store.foreign_key_columns store2.foreign_key_columns) := by
  constructor
  · intro hex
    obtain ⟨e, he⟩ :=
      storeScan_error_of_resolved tc store.foreign_key_columns hex
    refine ⟨e, ?_⟩
    simp only [LazyColumnReferenceStore.set_ready, he]
    rfl
  · intro hall
    obtain ⟨cols2, hc2, hf2⟩ :=
      storeScan_ok_of_all_lazy tc store.foreign_key_columns hall
    refine ⟨{ foreign_key_columns := cols2 }, ?_, hf2⟩
    simp only [LazyColumnReferenceStore.set_ready, hc2]
    rfl

/-- C6 counterexample: a reference constructed with BOTH locators given
(`app_name=""`, `module_path="music.tables"`, both non-`None`) does not
fail — `__post_init__`'s second check tests truthiness, and the empty
string is falsy — so construction succeeds in the unready state. -/
theorem lazy_ref_both_given_cex :
    LazyTableReference.construct "Manager" (Option.some "")
      (Option.some "music.tables")
      = Except.ok
          { table_class_name := "Manager",
            app_name := Option.some "",
            module_path := Option.some "music.tables",
            ready := false }
  ∧ (Option.some "" ≠ (Option.none : Option String))
  ∧ (Option.some "music.tables" ≠ (Option.none : Option String)) :=
  ⟨rfl, by decide, by decide⟩

/-- C6 amended: construction fails when neither locator is given (both
`None`), fails when both are given as truthy (non-empty) strings, and
otherwise — exactly one locator given, or both given but at least one of
them the empty string — succeeds with the reference starting unready. -/
theorem lazy_ref_construct_amended (n : String) (a m : Option String) :
    ((a = Option.none ∧ m = Option.none) →
      LazyTableReference.construct n a m = Except.error
        "You must specify either app_name or module_path.")
  ∧ ((truthyOpt a = true ∧ truthyOpt m = true) →
      LazyTableReference.construct n a m = Except.error
        "Specify either app_name or module_path - not both.")
  ∧ (¬(a = Option.none ∧ m = Option.none) →
      ¬(truthyOpt a = true ∧ truthyOpt m = true) →
      LazyTableReference.construct n a m = Except.ok
        { table_class_name := n, app_name := a, module_path := m,
          ready := false }) := by
  refine ⟨?_, ?_, ?_⟩
  · rintro ⟨ha, hm⟩
    simp [LazyTableReference.construct, ha, hm]
  · rintro ⟨ha, hm⟩
    have h1 : ¬(a = Option.none ∧ m = Option.none) := by
      rintro ⟨rfl, _⟩
      simp [truthyOpt] at ha
    rw [LazyTableReference.construct, if_neg h1, if_pos ⟨ha, hm⟩]
  · intro h1 h2
    rw [LazyTableReference.construct, if_neg h1, if_neg h2]

/-- C6 witness: the two failures and an exactly-one-locator success at
concrete inputs, through the amended theorem. -/
theorem lazy_ref_construct_amended_witness :
    LazyTableReference.construct "Manager" Option.none Option.none
      = Except.error "You must specify either app_name or module_path."
  ∧ LazyTableReference.construct "Manager" (Option.some "music")
      (Option.some "music.tables")
      = Except.error "Specify either app_name or module_path - not both."
  ∧ LazyTableReference.construct "Manager" (Option.some "music") Option.none
      = Except.ok
          { table_class_name := "Manager",
            app_name := Option.some "music",
            module_path := Option.none,
            ready := false } :=
  ⟨(lazy_ref_construct_amended "Manager" Option.none Option.none).1
     ⟨rfl, rfl⟩,
   (lazy_ref_construct_amended "Manager" (Option.some "music")
     (Option.some "music.tables")).2.1 ⟨by decide, by decide⟩,
   (lazy_ref_construct_amended "Manager" (Option.some "music")
     Option.none).2.2 (by decide) (by decide)⟩

/-- An unready app-locator reference to `Manager` in app `music`. -/
def musicManagerRef : LazyTableReference :=
  { table_class_name := "Manager", app_name := Option.some "music",
    module_path := Option.none, ready := false }

/-- C7: `set_ready` is a no-op once ready; for a module locator it flips
ready on the first candidate whose class name and module match; but for
an app locator, a name-matching candidate makes the comparison read
`table_class._meta.app_name`, an attribute `TableMeta` (table.py lines
26-35) does not define, so the scan raises instead of comparing app
names. -/
theorem set_ready_idempotent_and_app_crash :
    (∀ (r : LazyTableReference) (tcs : List TableClass), r.ready = true →
      LazyTableReference.set_ready r tcs = Except.ok r)
  ∧ (∀ (r : LazyTableReference) (tc : TableClass) (rest : List TableClass),
      r.ready = false → r.table_class_name = tc.name →
      r.module_path = Option.some tc.module → tc.module ≠ "" →
      LazyTableReference.set_ready r (tc :: rest)
        = Except.ok { r with ready := true })
  ∧ LazyTableReference.set_ready musicManagerRef [managerTableClass]
      = Except.error
        "AttributeError: TableMeta object has no attribute app_name" := by
  refine ⟨?_, ?_, rfl⟩
  · intro r tcs h
    simp [LazyTableReference.set_ready, h]
  · intro r tc rest h0 h1 h2 h3
    rw [LazyTableReference.set_ready, if_neg (by simp [h0])]
    simp only [setReadyScan, if_pos h1]
    rw [if_pos ⟨by simp [h2, truthyOpt, h3], h2⟩]

/-- The `music.tables` module with the `Manager` table defined in it. -/
def musicModule : PyModule :=
  { attrs := [("Manager", ModuleAttr.tableClass managerTableClass)] }

/-- A module importer that knows only `music.tables`. -/
def musicImporter : String → Option PyModule :=
  fun p => if p = "music.tables" then Option.some musicModule else Option.none

/-- An app-registry finder that is never consulted by module-locator
references. -/
def noFinder : String → String → Except String TableClass :=
  fun _ _ => Except.error "Finder unused"

/-- An unready module-locator reference to `Manager`. -/
def managerModuleRef : LazyTableReference :=
  { table_class_name := "Manager", app_name := Option.none,
    module_path := Option.some "music.tables", ready := false }

/-- An unready module-locator reference to a class the module lacks. -/
def bassistModuleRef : LazyTableReference :=
  { table_class_name := "Bassist", app_name := Option.none,
    module_path := Option.some "music.tables", ready := false }

/-- C8: for a module-locator reference whose module imports, `resolve`
returns the module attribute named `table_class_name` when it is a
`Table` subclass, and fails with the resolution error when the attribute
is absent or is not a `Table` subclass. -/
theorem lazy_ref_resolve_module (importer : String → Option PyModule)
    (finder : String → String → Except String TableClass)
    (r : LazyTableReference) (p : String) (pm : PyModule)
    (h1 : r.app_name = Option.none) (h2 : r.module_path = Option.some p)
    (h3 : p ≠ "") (h4 : importer p = Option.some pm) :
    (∀ tc, getattrModule pm r.table_class_name
        = Option.some (ModuleAttr.tableClass tc) →
      LazyTableReference.resolve importer finder r = Except.ok tc)
  ∧ (getattrModule pm r.table_class_name = Option.none →
      LazyTableReference.resolve importer finder r = Except.error
        ("Can\x27t find a Table subclass called " ++ r.table_class_name
          ++ " in " ++ p))
  ∧ (getattrModule pm r.table_class_name
        = Option.some ModuleAttr.notTable →
      LazyTableReference.resolve importer finder r = Except.error
        ("Can\x27t find a Table subclass called " ++ r.table_class_name
          ++ " in " ++ p)) := by
  refine ⟨?_, ?_, ?_⟩
  · intro tc h5
    simp [LazyTableReference.resolve, h1, h2, h3, h4, h5]
  · intro h5
    simp [LazyTableReference.resolve, h1, h2, h3, h4, h5]
  · intro h5
    simp [LazyTableReference.resolve, h1, h2, h3, h4, h5]

/-- C8 witness: through the theorem, `Manager` resolves from
`music.tables`, and the absent `Bassist` fails with the resolution
error. -/
theorem lazy_ref_resolve_module_witness :
    LazyTableReference.resolve musicImporter noFinder managerModuleRef
      = Except.ok managerTableClass
  ∧ LazyTableReference.resolve musicImporter noFinder bassistModuleRef
      = Except.error
        "Can\x27t find a Table subclass called Bassist in music.tables" :=
  ⟨(lazy_ref_resolve_module musicImporter noFinder managerModuleRef
      "music.tables" musicModule rfl rfl (by decide) rfl).1
      managerTableClass rfl,
   (lazy_ref_resolve_module musicImporter noFinder bassistModuleRef
      "music.tables" musicModule rfl rfl (by decide) rfl).2.1 rfl⟩

/-- A non-nullable column whose default exists but is the falsy `0`. -/
def zeroDefaultColumn : Column :=
  { meta := { name := "score", call_chain := [], null := false,
              table := Option.some "Band" },
    default := Option.some (DefaultVal.plain (Val.int 0)),
    isPrimaryKey := false }

/-- C9 counterexample: a column with an existing default of `0` — the
claim says the default is substituted when one exists, but
`Table.__init__`'s `if column.default:` tests truthiness, treats the
falsy default as absent, and raises for the non-nullable column. -/
theorem table_init_falsy_default_cex :
    zeroDefaultColumn.default.isSome = true
  ∧ zeroDefaultColumn.meta.null = false
  ∧ tableInit [zeroDefaultColumn] [] =
      Except.error "score wasn\x27t provided" :=
  ⟨rfl, rfl, rfl⟩

/-- `popKw` on a singleton dict holding exactly the requested key. -/
theorem popKw_single_hit (nm : String) (v : Val) :
    popKw [(nm, v)] nm = (v, []) := by
  simp [popKw]

/-- `popKw` on a singleton dict holding a different key. -/
theorem popKw_single_miss (k nm : String) (w : Val) (h : k ≠ nm) :
    popKw [(k, w)] nm = (Val.none, [(k, w)]) := by
  simp [popKw, h]

/-- C9 amended: a falsy supplied value is treated like an omitted one for
substitution and raising; the default is substituted only when the
`default` attribute is truthy (a falsy default such as `0` counts as
absent), otherwise a non-nullable column raises even though a value was
supplied; and a keyword naming no declared column raises. -/
theorem table_init_falsy_amended (c : Column) (v : Val)
    (h : truthyVal v = false) :
    ((tableInit [c] [(c.meta.name, v)]).isOk = (tableInit [c] []).isOk)
  ∧ (defaultObjTruthy c.default = true →
      tableInit [c] [(c.meta.name, v)]
        = Except.ok [(c.meta.name, defaultValue c.default v)]
      ∧ tableInit [c] []
        = Except.ok [(c.meta.name, defaultValue c.default Val.none)])
  ∧ (defaultObjTruthy c.default = false → c.meta.null = false →
      tableInit [c] [(c.meta.name, v)]
        = Except.error (c.meta.name ++ " wasn\x27t provided")
      ∧ tableInit [c] []
        = Except.error (c.meta.name ++ " wasn\x27t provided"))
  ∧ (∀ k w, k ≠ c.meta.name → defaultObjTruthy c.default = true →
      tableInit [c] [(k, w)]
        = Except.error ("Unrecognized columns - " ++ k)) := by
  have stepEq : ∀ w, truthyVal w = false →
      tableInitStep c w =
        if defaultObjTruthy c.default = true then
          Except.ok (defaultValue c.default w)
        else if c.meta.null = false then
          Except.error (c.meta.name ++ " wasn\x27t provided")
        else Except.ok w := by
    intro w hw
    simp [tableInitStep, hw]
  have hsupplied : tableInit [c] [(c.meta.name, v)]
      = match tableInitStep c v with
        | Except.error e => Except.error e
        | Except.ok w => Except.ok [(c.meta.name, w)] := by
    simp only [tableInit, tableInitLoop, popKw_single_hit]
    cases tableInitStep c v with
    | error e => rfl
    | ok w => rfl
  have homitted : tableInit [c] []
      = match tableInitStep c Val.none with
        | Except.error e => Except.error e
        | Except.ok w => Except.ok [(c.meta.name, w)] := by
    have hpop : popKw [] c.meta.name = (Val.none, []) := rfl
    simp only [tableInit, tableInitLoop, hpop]
    cases tableInitStep c Val.none with
    | error e => rfl
    | ok w => rfl
  refine ⟨?_, ?_, ?_, ?_⟩
  · rw [hsupplied, homitted, stepEq v h, stepEq Val.none rfl]
    by_cases hd : defaultObjTruthy c.default = true
    · rw [if_pos hd, if_pos hd]
      rfl
    · by_cases hn : c.meta.null = false
      · rw [if_neg hd, if_neg hd, if_pos hn, if_pos hn]
      · rw [if_neg hd, if_neg hd, if_neg hn, if_neg hn]
        rfl
  · intro hd
    constructor
    · rw [hsupplied, stepEq v h, if_pos hd]
    · rw [homitted, stepEq Val.none rfl, if_pos hd]
  · intro hd hn
    have hd2 : ¬(defaultObjTruthy c.default = true) := by simp [hd]
    constructor
    · rw [hsupplied, stepEq v h, if_neg hd2, if_pos hn]
    · rw [homitted, stepEq Val.none rfl, if_neg hd2, if_pos hn]
  · intro k w hk hd
    simp only [tableInit, tableInitLoop,
      popKw_single_miss k c.meta.name w hk, stepEq Val.none rfl, if_pos hd]
    rfl

/-- A nullable column with a truthy default. -/
def cityColumn : Column :=
  { meta := { name := "city", call_chain := [], null := true,
              table := Option.some "Band" },
    default := Option.some (DefaultVal.plain (Val.str "London")),
    isPrimaryKey := false }

/-- C9 witness: the amended behavior at concrete inputs — a falsy
supplied `""` gets the truthy default substituted; the falsy `0` default
raises for the non-nullable column; an unknown keyword raises. -/
theorem table_init_falsy_amended_witness :
    tableInit [cityColumn] [("city", Val.str "")]
      = Except.ok [("city", Val.str "London")]
  ∧ tableInit [zeroDefaultColumn] [("score", Val.int 0)]
      = Except.error "score wasn\x27t provided"
  ∧ tableInit [cityColumn] [("mayor", Val.str "Ken")]
      = Except.error "Unrecognized columns - mayor" :=
  ⟨((table_init_falsy_amended cityColumn (Val.str "") rfl).2.1 rfl).1,
   ((table_init_falsy_amended zeroDefaultColumn (Val.int 0)
      rfl).2.2.1 rfl rfl).1,
   (table_init_falsy_amended cityColumn Val.none
      rfl).2.2.2 "mayor" (Val.str "Ken") (by decide) rfl⟩

/-- C10: when the instance's id is an int, `remove` sets the instance's
id to `None` and returns a delete query whose predicate targets the old
id; when the id is not an int it raises and the instance is left
unchanged. -/
theorem table_remove_effect (inst : TableInstance) :
    (∀ n : Int, inst.id = Val.int n →
      (Table.remove inst).1 = { inst with id := Val.none }
      ∧ (Table.remove inst).2 = Except.ok
          { tablename := inst.tablename,
            whereClause := Option.some (eqWhere "id" (Val.int n)) })
  ∧ ((∀ n : Int, inst.id ≠ Val.int n) →
      (Table.remove inst).1 = inst
      ∧ (Table.remove inst).2
          = Except.error "Can only delete pre-existing rows with an id.") := by
  constructor
  · intro n h
    constructor
    · simp [Table.remove, h]
    · simp [Table.remove, h]
  · intro h
    cases hid : inst.id with
    | int n => exact absurd hid (h n)
    | none =>
        exact ⟨by simp [Table.remove, hid], by simp [Table.remove, hid]⟩
    | bool b =>
        exact ⟨by simp [Table.remove, hid], by simp [Table.remove, hid]⟩
    | str s =>
        exact ⟨by simp [Table.remove, hid], by simp [Table.remove, hid]⟩

/-- C10 witness: a concrete instance with id 7 is reset and its delete
targets 7; a string id raises and leaves the instance unchanged. -/
theorem table_remove_effect_witness :
    (Table.remove { tablename := "band", id := Val.int 7 }).1
      = { tablename := "band", id := Val.none }
  ∧ (Table.remove { tablename := "band", id := Val.int 7 }).2
      = Except.ok
          { tablename := "band",
            whereClause := Option.some (eqWhere "id" (Val.int 7)) }
  ∧ (Table.remove { tablename := "band", id := Val.str "x" }).1
      = { tablename := "band", id := Val.str "x" }
  ∧ (Table.remove { tablename := "band", id := Val.str "x" }).2
      = Except.error "Can only delete pre-existing rows with an id." :=
  ⟨((table_remove_effect { tablename := "band", id := Val.int 7 }).1 7 rfl).1,
   ((table_remove_effect { tablename := "band", id := Val.int 7 }).1 7 rfl).2,
   ((table_remove_effect { tablename := "band", id := Val.str "x" }).2
      (fun _ h => Val.noConfusion h)).1,
   ((table_remove_effect { tablename := "band", id := Val.str "x" }).2
      (fun _ h => Val.noConfusion h)).2⟩
